import Mathlib

set_option linter.unusedVariables false

/-!
Shallow embedding of the Resilient Data Client of
`src/frontend/src/lib/api.js`: the retry-wrapped transport
(`fetchWithRetry`), the mock fixtures (`mockInventoryData`,
`mockAlertsData`, `mockPatchesData`) and the seventeen `api.*` operations
built on them.

Modelling conventions:
* JavaScript values are modelled by `JVal`; `undefined` and `null` are the
  distinct JS values `undefined` and `null`; numbers are exact rationals
  (every numeric literal in the source is a decimal literal, represented
  exactly).
* `new Date(ms).toISOString()` is modelled by the constructor
  `JVal.isoDate ms`: the claims never inspect the rendered date string,
  only whole-value equality, and `toISOString` is injective in `ms`, so a
  dedicated constructor is a faithful image of the string.
* The module-load clock (`Date.now()` evaluated while the fixture
  constants are built) is a parameter `t0`; a call-time `Date.now()` is a
  parameter `now`.  The source module has no mutable state (all bindings
  are `const`, never reassigned), so each operation is a pure function of
  its transport, its arguments and these clock parameters.
* A transport is `Nat → FetchResult`: the outcome `fetch` + `json()`
  would produce on the i-th attempt (0-based).  `httpError s` is a
  resolved response with `ok = false` and status `s` (the source then
  throws `HTTP error! status: s`); `failure msg` is a rejected fetch or a
  throwing `json()`, whose `error.message` is `msg`.
* An envelope field that the source simply does not write (e.g. `error`
  on the success path) is `none`; an explicit JS `null` is
  `some JVal.null`.
-/

inductive JVal where
  | undefined : JVal
  | null : JVal
  | bool (b : Bool) : JVal
  | num (q : ℚ) : JVal
  | str (s : String) : JVal
  | arr (elems : List JVal) : JVal
  | obj (fields : List (String × JVal)) : JVal
  | isoDate (ms : ℤ) : JVal

/-- JS property access `v[k]` as used in the source: looking a key up in an
object yields its value, a missing key or a non-object receiver yields
`undefined`.  (The source only dereferences possibly-null receivers behind
`?.`, whose semantics this also captures.) -/
def jsGet : JVal → String → JVal
  | .obj fields, k =>
    match fields.lookup k with
    | some v => v
    | none => .undefined
  | _, _ => .undefined

/-- JS truthiness: `undefined`, `null`, `false`, `0` and `""` are falsy. -/
def jsTruthy : JVal → Bool
  | .undefined => false
  | .null => false
  | .bool b => b
  | .num q => !(q == 0)
  | .str s => !(s == "")
  | .arr _ => true
  | .obj _ => true
  | .isoDate _ => true

/-- JS `a || b`. -/
def jsOr (a b : JVal) : JVal := if jsTruthy a then a else b

/-- JS strict equality `===` as exercised by the source: every comparison
site has a primitive on at least one side (a fixture id string, a status
string, or a severity string), where `===` is structural equality on equal
types and false across different types.  `===` on two composite values
(reference equality in JS) never arises at any call site, and is modelled
as false. -/
def jsEq : JVal → JVal → Bool
  | .undefined, .undefined => true
  | .null, .null => true
  | .bool a, .bool b => a == b
  | .num a, .num b => a == b
  | .str a, .str b => a == b
  | .isoDate a, .isoDate b => a == b
  | _, _ => false

/-- The response envelope `{success, data, error, fromCache}`.  A field the
source does not write on some path is `none` (absent key). -/
structure Envelope where
  success : Bool
  data : Option JVal := none
  error : Option String := none
  fromCache : Option Bool := none

/-- Outcome of one transport attempt (`fetch` plus `response.json()`). -/
inductive FetchResult where
  | success (body : JVal) : FetchResult
  | httpError (status : Nat) : FetchResult
  | failure (msg : String) : FetchResult

def Transport := Nat → FetchResult

/-- Whether the attempt reaches the `return {success: true, ...}` line. -/
def FetchResult.isOk : FetchResult → Bool
  | .success _ => true
  | .httpError _ => false
  | .failure _ => false

/-- The `error.message` the catch block sees: a non-ok response was turned
into a thrown `HTTP error! status: N`. -/
def FetchResult.errMessage : FetchResult → String
  | .success _ => ""
  | .httpError status => "HTTP error! status: " ++ toString status
  | .failure msg => msg

/-- Observable trace of one `fetchWithRetry` call: the returned envelope,
how many times the transport was invoked, and the `setTimeout` delays (in
ms) awaited between attempts, in order. -/
structure FetchTrace where
  envelope : Envelope
  attempts : Nat
  delays : List Nat

/-- The `for (let i = 0; i <= retries; i++)` loop of `fetchWithRetry`.
`i` is the current attempt index and `fuel` the number of retries still
allowed, so `fuel = 0` exactly when the source guard `i === retries`
holds.  On a failed non-final attempt the source awaits
`setTimeout(1000 * (i + 1))` and continues. -/
def fetchLoop (transport : Transport) : Nat → Nat → FetchTrace
  | i, 0 =>
    (match transport i with
    | .success body =>
      { envelope := { success := true, data := some body, fromCache := some false }
        attempts := i + 1
        delays := [] }
    | r =>
      { envelope := { success := false, data := some JVal.null, error := some r.errMessage }
        attempts := i + 1
        delays := [] })
  | i, fuel + 1 =>
    (match transport i with
    | .success body =>
      { envelope := { success := true, data := some body, fromCache := some false }
        attempts := i + 1
        delays := [] }
    | r =>
      let rest := fetchLoop transport (i + 1) fuel
      { rest with delays := 1000 * (i + 1) :: rest.delays })

/-- `fetchWithRetry(url, options, retries = 2)`: the url and options only
select which transport is exercised, so the model takes the transport
directly. -/
def fetchWithRetry (transport : Transport) (retries : Nat := 2) : FetchTrace :=
  fetchLoop transport 0 retries

/-- The `mockInventoryData` constant, as a list of device objects.  `t0` is
the module-load clock: `new Date().toISOString()` is `isoDate t0` and
`new Date(Date.now() - 7200000).toISOString()` is `isoDate (t0 - 7200000)`. -/
def mockInventoryList (t0 : ℤ) : List JVal :=
  [ .obj [
      ("id", .num 1),
      ("name", .str "PROD-WEB-01"),
      ("ipAddress", .str "192.168.1.10"),
      ("macAddress", .str "00:1B:44:11:3A:B7"),
      ("operatingSystem", .str "Windows Server 2019"),
      ("type", .str "Server"),
      ("client", .str "Acme Corp"),
      ("site", .str "Main Office"),
      ("status", .str "online"),
      ("lastSeenAt", .isoDate t0),
      ("patchStatus", .str "compliant"),
      ("pendingPatches", .num 0),
      ("riskScore", .num 25.5),
      ("vulnerabilityStats", .obj [
        ("total", .num 2), ("critical", .num 0), ("high", .num 0),
        ("medium", .num 2), ("low", .num 0)]),
      ("topVulnerabilities", .arr [
        .obj [("cveId", .str "CVE-2024-7621"), ("severity", .str "MEDIUM"),
              ("cvssScore", .num 5.3),
              ("description", .str "Moderate security vulnerability in web server component")]])],
    .obj [
      ("id", .num 2),
      ("name", .str "PROD-DB-01"),
      ("ipAddress", .str "192.168.1.20"),
      ("macAddress", .str "00:1B:44:11:3A:B8"),
      ("operatingSystem", .str "Windows Server 2022"),
      ("type", .str "Server"),
      ("client", .str "Acme Corp"),
      ("site", .str "Main Office"),
      ("status", .str "online"),
      ("lastSeenAt", .isoDate t0),
      ("patchStatus", .str "pending"),
      ("pendingPatches", .num 3),
      ("riskScore", .num 78.2),
      ("vulnerabilityStats", .obj [
        ("total", .num 8), ("critical", .num 2), ("high", .num 3),
        ("medium", .num 2), ("low", .num 1)]),
      ("topVulnerabilities", .arr [
        .obj [("cveId", .str "CVE-2024-9123"), ("severity", .str "CRITICAL"),
              ("cvssScore", .num 9.8),
              ("description", .str "Critical RCE vulnerability allows remote code execution")],
        .obj [("cveId", .str "CVE-2024-8956"), ("severity", .str "CRITICAL"),
              ("cvssScore", .num 9.1),
              ("description", .str "SQL injection vulnerability in database component")],
        .obj [("cveId", .str "CVE-2024-8745"), ("severity", .str "HIGH"),
              ("cvssScore", .num 8.8),
              ("description", .str "Privilege escalation vulnerability")]])],
    .obj [
      ("id", .num 3),
      ("name", .str "PROD-APP-01"),
      ("ipAddress", .str "192.168.1.30"),
      ("macAddress", .str "00:1B:44:11:3A:B9"),
      ("operatingSystem", .str "Ubuntu 22.04 LTS"),
      ("type", .str "Server"),
      ("client", .str "Acme Corp"),
      ("site", .str "Main Office"),
      ("status", .str "online"),
      ("lastSeenAt", .isoDate t0),
      ("patchStatus", .str "compliant"),
      ("pendingPatches", .num 0),
      ("riskScore", .num 32.1),
      ("vulnerabilityStats", .obj [
        ("total", .num 3), ("critical", .num 0), ("high", .num 1),
        ("medium", .num 2), ("low", .num 0)]),
      ("topVulnerabilities", .arr [
        .obj [("cveId", .str "CVE-2024-7890"), ("severity", .str "HIGH"),
              ("cvssScore", .num 7.5),
              ("description", .str "HTTP request smuggling vulnerability")],
        .obj [("cveId", .str "CVE-2024-7621"), ("severity", .str "MEDIUM"),
              ("cvssScore", .num 5.3),
              ("description", .str "Moderate security vulnerability")]])],
    .obj [
      ("id", .num 4),
      ("name", .str "WORKSTATION-01"),
      ("ipAddress", .str "192.168.2.10"),
      ("macAddress", .str "00:1B:44:11:3A:BA"),
      ("operatingSystem", .str "Windows 11 Pro"),
      ("type", .str "Workstation"),
      ("client", .str "Acme Corp"),
      ("site", .str "Main Office"),
      ("status", .str "online"),
      ("lastSeenAt", .isoDate t0),
      ("patchStatus", .str "pending"),
      ("pendingPatches", .num 5),
      ("riskScore", .num 65.8),
      ("vulnerabilityStats", .obj [
        ("total", .num 7), ("critical", .num 1), ("high", .num 3),
        ("medium", .num 3), ("low", .num 0)]),
      ("topVulnerabilities", .arr [
        .obj [("cveId", .str "CVE-2024-9123"), ("severity", .str "CRITICAL"),
              ("cvssScore", .num 9.8),
              ("description", .str "Critical RCE vulnerability allows remote code execution")],
        .obj [("cveId", .str "CVE-2024-8632"), ("severity", .str "HIGH"),
              ("cvssScore", .num 8.1),
              ("description", .str "Authentication bypass vulnerability")]])],
    .obj [
      ("id", .num 5),
      ("name", .str "WORKSTATION-02"),
      ("ipAddress", .str "192.168.2.11"),
      ("macAddress", .str "00:1B:44:11:3A:BB"),
      ("operatingSystem", .str "Windows 11 Pro"),
      ("type", .str "Workstation"),
      ("client", .str "Acme Corp"),
      ("site", .str "Branch Office"),
      ("status", .str "offline"),
      ("lastSeenAt", .isoDate (t0 - 7200000)),
      ("patchStatus", .str "non-compliant"),
      ("pendingPatches", .num 12),
      ("riskScore", .num 92.5),
      ("vulnerabilityStats", .obj [
        ("total", .num 15), ("critical", .num 4), ("high", .num 6),
        ("medium", .num 5), ("low", .num 0)]),
      ("topVulnerabilities", .arr [
        .obj [("cveId", .str "CVE-2024-9123"), ("severity", .str "CRITICAL"),
              ("cvssScore", .num 9.8),
              ("description", .str "Critical RCE vulnerability allows remote code execution")],
        .obj [("cveId", .str "CVE-2024-8956"), ("severity", .str "CRITICAL"),
              ("cvssScore", .num 9.1),
              ("description", .str "SQL injection vulnerability")],
        .obj [("cveId", .str "CVE-2024-8745"), ("severity", .str "HIGH"),
              ("cvssScore", .num 8.8),
              ("description", .str "Privilege escalation vulnerability")],
        .obj [("cveId", .str "CVE-2024-8632"), ("severity", .str "HIGH"),
              ("cvssScore", .num 8.1),
              ("description", .str "Authentication bypass vulnerability")]])]]

def mockInventoryData (t0 : ℤ) : JVal := .arr (mockInventoryList t0)

/-- The `mockAlertsData` constant: `new Date(Date.now() - k).toISOString()`
is `isoDate (t0 - k)`. -/
def mockAlertsList (t0 : ℤ) : List JVal :=
  [ .obj [
      ("id", .num 1),
      ("title", .str "High CPU Usage on SQL Server"),
      ("description", .str "SQL Server on PROD-DB-01 showing 95% CPU utilization"),
      ("severity", .str "critical"),
      ("timestamp", .isoDate (t0 - 900000)),
      ("deviceId", .num 2),
      ("deviceName", .str "PROD-DB-01"),
      ("status", .str "active")],
    .obj [
      ("id", .num 2),
      ("title", .str "Failed Windows Update"),
      ("description", .str "KB5034441 failed to install on multiple workstations"),
      ("severity", .str "high"),
      ("timestamp", .isoDate (t0 - 7200000)),
      ("deviceId", .num 4),
      ("deviceName", .str "WORKSTATION-01"),
      ("status", .str "active")],
    .obj [
      ("id", .num 3),
      ("title", .str "Low Disk Space Warning"),
      ("description", .str "C: drive on FILE-SRV-02 has less than 10% free space"),
      ("severity", .str "medium"),
      ("timestamp", .isoDate (t0 - 14400000)),
      ("deviceId", .null),
      ("deviceName", .str "FILE-SRV-02"),
      ("status", .str "active")]]

def mockAlertsData (t0 : ℤ) : JVal := .arr (mockAlertsList t0)

/-- The `mockPatchesData` constant (no dynamic timestamps). -/
def mockPatchesList : List JVal :=
  [ .obj [
      ("id", .str "KB5034441"),
      ("title", .str "Windows 11 Security Update"),
      ("description", .str "Cumulative security update for Windows 11"),
      ("severity", .str "CRITICAL"),
      ("releaseDate", .str "2024-01-09"),
      ("cveId", .str "CVE-2024-9123"),
      ("cveIds", .arr [.str "CVE-2024-9123", .str "CVE-2024-8956"]),
      ("relatedCVEs", .arr [
        .obj [("id", .str "CVE-2024-9123"), ("severity", .str "CRITICAL"), ("score", .num 9.8)],
        .obj [("id", .str "CVE-2024-8956"), ("severity", .str "HIGH"), ("score", .num 7.5)]]),
      ("affectedDevices", .arr [.num 1, .num 2]),
      ("installedDevices", .num 0),
      ("failedDevices", .num 0),
      ("status", .str "AVAILABLE"),
      ("vendor", .str "Microsoft"),
      ("category", .str "Security Update"),
      ("size", .str "450 MB"),
      ("requiresReboot", .bool true)],
    .obj [
      ("id", .str "KB5034439"),
      ("title", .str "Windows Server 2022 Update"),
      ("description", .str "Monthly rollup for Windows Server 2022"),
      ("severity", .str "HIGH"),
      ("releaseDate", .str "2024-01-09"),
      ("cveId", .str "CVE-2024-8745"),
      ("cveIds", .arr [.str "CVE-2024-8745"]),
      ("relatedCVEs", .arr [
        .obj [("id", .str "CVE-2024-8745"), ("severity", .str "HIGH"), ("score", .num 7.8)]]),
      ("affectedDevices", .arr [.num 3, .num 4]),
      ("installedDevices", .num 1),
      ("failedDevices", .num 0),
      ("status", .str "DEPLOYING"),
      ("vendor", .str "Microsoft"),
      ("category", .str "Monthly Rollup"),
      ("size", .str "320 MB"),
      ("requiresReboot", .bool true)],
    .obj [
      ("id", .str "UBUNTU-2024-01"),
      ("title", .str "Ubuntu Security Updates"),
      ("description", .str "Security updates for Ubuntu 22.04 LTS"),
      ("severity", .str "MEDIUM"),
      ("releaseDate", .str "2024-01-08"),
      ("cveId", .str "CVE-2024-7621"),
      ("cveIds", .arr [.str "CVE-2024-7621"]),
      ("relatedCVEs", .arr [
        .obj [("id", .str "CVE-2024-7621"), ("severity", .str "MEDIUM"), ("score", .num 5.5)]]),
      ("affectedDevices", .arr [.num 5]),
      ("installedDevices", .num 1),
      ("failedDevices", .num 0),
      ("status", .str "DEPLOYED"),
      ("vendor", .str "Canonical"),
      ("category", .str "Security Update"),
      ("size", .str "125 MB"),
      ("requiresReboot", .bool false)]]

def mockPatchesData : JVal := .arr mockPatchesList

/-- Writing key `k` into a JS object (its fields listed in insertion
order, keys unique as in every JS object): an existing key keeps its
position and takes the new value, a new key is appended. -/
def objInsert : List (String × JVal) → String → JVal → List (String × JVal)
  | [], k, v => [(k, v)]
  | (k1, v1) :: rest, k, v =>
    if k1 == k then (k, v) :: rest
    else (k1, v1) :: objInsert rest k v

/-- Object-literal spread `{...base-keys-already-written, ...src}`: the keys
of `src` are written left to right, later writes overwriting earlier ones. -/
def objSpread (base src : List (String × JVal)) : List (String × JVal) :=
  src.foldl (fun acc p => objInsert acc p.1 p.2) base

/-- JS `.length` property: defined on arrays and strings, `undefined`
elsewhere (the source reads it only behind `?.`). -/
def jsLengthProp : JVal → JVal
  | .arr elems => .num elems.length
  | .str s => .num s.length
  | _ => .undefined

namespace api

/-- `api.getInventory()`. -/
def getInventory (transport : Transport) (t0 : ℤ) : Envelope :=
  let result := (fetchWithRetry transport).envelope
  if !result.success then
    { success := true, data := some (mockInventoryData t0), fromCache := some true }
  else
    result

/-- `api.scanDevice(deviceId)`; `deviceId` only selects the URL, hence the
transport. -/
def scanDevice (transport : Transport) (deviceId : JVal) : Envelope :=
  let result := (fetchWithRetry transport).envelope
  if !result.success then
    { success := true, data := some (.obj [("message", .str "Scan initiated (mock)")]),
      fromCache := some true }
  else
    result

/-- `api.getAlerts()`. -/
def getAlerts (transport : Transport) (t0 : ℤ) : Envelope :=
  let result := (fetchWithRetry transport).envelope
  if !result.success then
    { success := true, data := some (mockAlertsData t0), fromCache := some true }
  else
    result

/-- `api.acknowledgeAlert(alertId)`. -/
def acknowledgeAlert (transport : Transport) (alertId : JVal) : Envelope :=
  let result := (fetchWithRetry transport).envelope
  if !result.success then
    { success := true, data := some (.obj [("message", .str "Alert acknowledged (mock)")]),
      fromCache := some true }
  else
    result

/-- `api.resolveAlert(alertId, resolution)`. -/
def resolveAlert (transport : Transport) (alertId resolution : JVal) : Envelope :=
  let result := (fetchWithRetry transport).envelope
  if !result.success then
    { success := true, data := some (.obj [("message", .str "Alert resolved (mock)")]),
      fromCache := some true }
  else
    result

/-- `api.createAlert(alertData)`: the fallback data is the object literal
`{id: Date.now(), ...alertData}`; `alertData` is given by its fields and
`now` is the call-time `Date.now()`. -/
def createAlert (transport : Transport) (alertData : List (String × JVal))
    (now : ℤ) : Envelope :=
  let result := (fetchWithRetry transport).envelope
  if !result.success then
    { success := true,
      data := some (.obj (objSpread [("id", .num (now : ℚ))] alertData)),
      fromCache := some true }
  else
    result

/-- `api.getPatches()`. -/
def getPatches (transport : Transport) : Envelope :=
  let result := (fetchWithRetry transport).envelope
  if !result.success then
    { success := true, data := some mockPatchesData, fromCache := some true }
  else
    result

/-- `api.getPatchDetails(patchId)`: the fallback looks the id up in the
patches fixture with `find(p => p.id === patchId)` and returns
`mockPatch || {}`. -/
def getPatchDetails (transport : Transport) (patchId : JVal) : Envelope :=
  let result := (fetchWithRetry transport).envelope
  if !result.success then
    let mockPatch :=
      match mockPatchesList.find? (fun p => jsEq (jsGet p "id") patchId) with
      | some p => p
      | none => JVal.undefined
    { success := true, data := some (jsOr mockPatch (.obj [])), fromCache := some true }
  else
    result

/-- `api.analyzePatch(patchData)`: the fallback derives a canned analysis
from `patchData.patch?.severity || 'MEDIUM'`. -/
def analyzePatch (transport : Transport) (patchData : JVal) : Envelope :=
  let result := (fetchWithRetry transport).envelope
  if !result.success then
    let severity := jsOr (jsGet (jsGet patchData "patch") "severity") (.str "MEDIUM")
    let isHighRisk := jsEq severity (.str "CRITICAL") || jsEq severity (.str "HIGH")
    { success := true,
      data := some (.obj [
        ("recommendation", .str (if isHighRisk then "REVIEW" else "APPROVE")),
        ("reasoning", .str (if isHighRisk then
            "This patch addresses critical security vulnerabilities. Recommend thorough testing before production deployment."
          else
            "Patch has been analyzed and approved for deployment. Low risk of system disruption.")),
        ("riskLevel", .num (if isHighRisk then 7 else 3)),
        ("businessImpact", .str (if isHighRisk then "HIGH" else "LOW")),
        ("confidence", .num 0.92),
        ("deploymentSteps", .arr [
          .str "Backup affected systems before deployment",
          .str "Deploy to test environment first",
          .str (if isHighRisk then "Conduct thorough testing for 24-48 hours"
                else "Monitor for 2-4 hours"),
          .str "Deploy to production during maintenance window",
          .str "Verify successful installation and system stability",
          .str "Document deployment and any issues encountered"])]),
      fromCache := some true }
  else
    result

/-- `api.deployPatch(deploymentData)`: the fallback job id is the template
string `mock-N` with `N = Date.now()`. -/
def deployPatch (transport : Transport) (deploymentData : JVal)
    (now : ℤ) : Envelope :=
  let result := (fetchWithRetry transport).envelope
  if !result.success then
    { success := true,
      data := some (.obj [
        ("jobId", .str ("mock-" ++ toString now)),
        ("message", .str "Deployment initiated (mock)")]),
      fromCache := some true }
  else
    result

/-- `api.getPatchStatus()`: the fallback aggregates the inventory fixture
by `patchStatus`; `now` is the call-time clock of `lastUpdate`. -/
def getPatchStatus (transport : Transport) (t0 now : ℤ) : Envelope :=
  let result := (fetchWithRetry transport).envelope
  if !result.success then
    let inventory := mockInventoryList t0
    { success := true,
      data := some (.obj [
        ("totalDevices", .num (inventory.length : ℚ)),
        ("compliant", .num
          ((inventory.filter (fun d => jsEq (jsGet d "patchStatus") (.str "compliant"))).length : ℚ)),
        ("pending", .num
          ((inventory.filter (fun d => jsEq (jsGet d "patchStatus") (.str "pending"))).length : ℚ)),
        ("nonCompliant", .num
          ((inventory.filter (fun d => jsEq (jsGet d "patchStatus") (.str "non-compliant"))).length : ℚ)),
        ("lastUpdate", .isoDate now)]),
      fromCache := some true }
  else
    result

/-- `api.getPatchAnalysis()`. -/
def getPatchAnalysis (transport : Transport) : Envelope :=
  let result := (fetchWithRetry transport).envelope
  if !result.success then
    { success := true, data := some mockPatchesData, fromCache := some true }
  else
    result

/-- `api.getPatchSchedule()`. -/
def getPatchSchedule (transport : Transport) : Envelope :=
  let result := (fetchWithRetry transport).envelope
  if !result.success then
    { success := true, data := some (.arr []), fromCache := some true }
  else
    result

/-- `api.getSchedules(status)`; `status` only selects the URL query, hence
the transport. -/
def getSchedules (transport : Transport) (status : JVal) : Envelope :=
  let result := (fetchWithRetry transport).envelope
  if !result.success then
    { success := true,
      data := some (.obj [("schedules", .arr []), ("count", .num 0)]),
      fromCache := some true }
  else
    result

/-- `api.createSchedule(scheduleData)`: the fallback echoes
`scheduledFor`/`patchTitle` and computes
`deviceCount = scheduleData.deviceIds?.length || 0`. -/
def createSchedule (transport : Transport) (scheduleData : JVal)
    (now : ℤ) : Envelope :=
  let result := (fetchWithRetry transport).envelope
  if !result.success then
    { success := true,
      data := some (.obj [
        ("scheduleId", .str ("mock-" ++ toString now)),
        ("scheduledFor", jsGet scheduleData "scheduledFor"),
        ("patchTitle", jsGet scheduleData "patchTitle"),
        ("deviceCount", jsOr (jsLengthProp (jsGet scheduleData "deviceIds")) (.num 0)),
        ("message", .str "Schedule created (mock)")]),
      fromCache := some true }
  else
    result

/-- `api.getScheduleDetails(scheduleId)`: the only operation whose fallback
is a failure envelope, with no `data` and no `fromCache` key. -/
def getScheduleDetails (transport : Transport) (scheduleId : JVal) : Envelope :=
  let result := (fetchWithRetry transport).envelope
  if !result.success then
    { success := false, error := some "Schedule not found" }
  else
    result

/-- `api.cancelSchedule(scheduleId)`. -/
def cancelSchedule (transport : Transport) (scheduleId : JVal) : Envelope :=
  let result := (fetchWithRetry transport).envelope
  if !result.success then
    { success := true, data := some (.obj [("message", .str "Schedule cancelled (mock)")]),
      fromCache := some true }
  else
    result

end api

/-- A transport on which every attempt fails (connection error, thrown
parse, or non-ok HTTP status). -/
def AlwaysFails (transport : Transport) : Prop :=
  ∀ i, (transport i).isOk = false

/-- Shape invariant of every api-level envelope: `success` is always a
defined boolean; when it is true, `data` and `fromCache` are present and
`error` is absent; when it is false, `error` is present. -/
def EnvelopeWF (e : Envelope) : Prop :=
  (e.success = true → e.data.isSome = true ∧ e.fromCache.isSome = true ∧ e.error = none) ∧
  (e.success = false → e.error.isSome = true)

example :
    fetchWithRetry (fun _ => .httpError 500) =
      { envelope := { success := false, data := some JVal.null,
                      error := some "HTTP error! status: 500" }
        attempts := 3
        delays := [1000, 2000] } := by rfl

example :
    fetchWithRetry (fun i => if i < 2 then .failure "boom" else .success (JVal.num 7)) =
      { envelope := { success := true, data := some (JVal.num 7), fromCache := some false }
        attempts := 3
        delays := [1000, 2000] } := by rfl

/-- An attempt that succeeds returns at once, whatever fuel remains. -/
theorem fetchLoop_ok (transport : Transport) (i fuel : Nat) (b : JVal)
    (h : transport i = .success b) :
    fetchLoop transport i fuel =
      { envelope := { success := true, data := some b, fromCache := some false }
        attempts := i + 1
        delays := [] } := by
  cases fuel <;> rw [fetchLoop, h]

/-- A failing attempt with no retries left returns the terminal failure
envelope. -/
theorem fetchLoop_fail_zero (transport : Transport) (i : Nat)
    (h : (transport i).isOk = false) :
    fetchLoop transport i 0 =
      { envelope := { success := false, data := some JVal.null,
                      error := some (transport i).errMessage }
        attempts := i + 1
        delays := [] } := by
  cases hti : transport i with
  | success b => rw [hti] at h; simp [FetchResult.isOk] at h
  | httpError s => rw [fetchLoop, hti]
  | failure m => rw [fetchLoop, hti]

/-- A failing attempt with retries left sleeps `1000 * (i + 1)` ms and
recurses. -/
theorem fetchLoop_fail_step (transport : Transport) (i fuel : Nat)
    (h : (transport i).isOk = false) :
    fetchLoop transport i (fuel + 1) =
      { fetchLoop transport (i + 1) fuel with
        delays := 1000 * (i + 1) :: (fetchLoop transport (i + 1) fuel).delays } := by
  cases hti : transport i with
  | success b => rw [hti] at h; simp [FetchResult.isOk] at h
  | httpError s => rw [fetchLoop, hti]
  | failure m => rw [fetchLoop, hti]

/-- The envelope `fetchWithRetry` produces is always one of exactly two
shapes: a genuine response or the terminal failure. -/
theorem fetchLoop_envelope_shape (transport : Transport) (fuel i : Nat) :
    (∃ b, (fetchLoop transport i fuel).envelope =
        { success := true, data := some b, error := none, fromCache := some false }) ∨
    (∃ m, (fetchLoop transport i fuel).envelope =
        { success := false, data := some JVal.null, error := some m, fromCache := none }) := by
  induction fuel generalizing i with
  | zero =>
    cases hti : transport i with
    | success b => exact Or.inl ⟨b, by rw [fetchLoop_ok transport i 0 b hti]⟩
    | httpError s =>
      exact Or.inr ⟨(FetchResult.httpError s).errMessage, by
        rw [fetchLoop_fail_zero transport i (by rw [hti]; rfl), hti]⟩
    | failure m =>
      exact Or.inr ⟨m, by rw [fetchLoop_fail_zero transport i (by rw [hti]; rfl), hti]; rfl⟩
  | succ fuel ih =>
    cases hti : transport i with
    | success b => exact Or.inl ⟨b, by rw [fetchLoop_ok transport i (fuel + 1) b hti]⟩
    | httpError s =>
      rw [fetchLoop_fail_step transport i fuel (by rw [hti]; rfl)]
      exact ih (i + 1)
    | failure m =>
      rw [fetchLoop_fail_step transport i fuel (by rw [hti]; rfl)]
      exact ih (i + 1)

/-- `fetchLoop` only consults the transport on the attempts it can reach:
two transports agreeing on indices `i..i+fuel` give identical traces.  In
particular a `fetchWithRetry` call never makes a 4th attempt. -/
theorem fetchLoop_congr (transport transport' : Transport) (fuel i : Nat)
    (h : ∀ j, i ≤ j → j ≤ i + fuel → transport' j = transport j) :
    fetchLoop transport' i fuel = fetchLoop transport i fuel := by
  induction fuel generalizing i with
  | zero =>
    have h0 : transport' i = transport i := h i le_rfl (by omega)
    cases hti : transport i with
    | success b =>
      rw [fetchLoop_ok transport i 0 b hti, fetchLoop_ok transport' i 0 b (by rw [h0, hti])]
    | httpError s =>
      rw [fetchLoop_fail_zero transport i (by rw [hti]; rfl),
          fetchLoop_fail_zero transport' i (by rw [h0, hti]; rfl), h0]
    | failure m =>
      rw [fetchLoop_fail_zero transport i (by rw [hti]; rfl),
          fetchLoop_fail_zero transport' i (by rw [h0, hti]; rfl), h0]
  | succ fuel ih =>
    have h0 : transport' i = transport i := h i le_rfl (by omega)
    have hrest : fetchLoop transport' (i + 1) fuel = fetchLoop transport (i + 1) fuel :=
      ih (i + 1) (fun j hj1 hj2 => h j (by omega) (by omega))
    cases hti : transport i with
    | success b =>
      rw [fetchLoop_ok transport i (fuel + 1) b hti,
          fetchLoop_ok transport' i (fuel + 1) b (by rw [h0, hti])]
    | httpError s =>
      rw [fetchLoop_fail_step transport i fuel (by rw [hti]; rfl),
          fetchLoop_fail_step transport' i fuel (by rw [h0, hti]; rfl), hrest]
    | failure m =>
      rw [fetchLoop_fail_step transport i fuel (by rw [hti]; rfl),
          fetchLoop_fail_step transport' i fuel (by rw [h0, hti]; rfl), hrest]

/-- On an always-failing transport the whole trace of `fetchWithRetry` is
determined: terminal failure carrying the attempt-3 error message, exactly
3 attempts, and the two backoff delays 1000 ms and 2000 ms. -/
theorem fetchWithRetry_allFail (transport : Transport) (h : AlwaysFails transport) :
    fetchWithRetry transport =
      { envelope := { success := false, data := some JVal.null,
                      error := some (transport 2).errMessage }
        attempts := 3
        delays := [1000, 2000] } := by
  rw [fetchWithRetry, fetchLoop_fail_step transport 0 1 (h 0),
      fetchLoop_fail_step transport 1 0 (h 1), fetchLoop_fail_zero transport 2 (h 2)]

/-- On a transport that fails twice then succeeds, `fetchWithRetry` is a
genuine 3-attempt success with the two backoff delays. -/
theorem fetchWithRetry_failTwice (transport : Transport) (b : JVal)
    (h0 : (transport 0).isOk = false) (h1 : (transport 1).isOk = false)
    (h2 : transport 2 = .success b) :
    fetchWithRetry transport =
      { envelope := { success := true, data := some b, fromCache := some false }
        attempts := 3
        delays := [1000, 2000] } := by
  rw [fetchWithRetry, fetchLoop_fail_step transport 0 1 h0,
      fetchLoop_fail_step transport 1 0 h1, fetchLoop_ok transport 2 0 b h2]

/-- `getInventory` on a dead backend synthesizes the inventory fixture. -/
theorem api.getInventory_allFail (transport : Transport) (t0 : ℤ)
    (h : AlwaysFails transport) :
    api.getInventory transport t0 =
      { success := true, data := some (mockInventoryData t0), fromCache := some true } := by
  unfold api.getInventory
  rw [fetchWithRetry_allFail transport h]
  rfl

/-- `scanDevice` on a dead backend synthesizes an acceptance. -/
theorem api.scanDevice_allFail (transport : Transport) (deviceId : JVal)
    (h : AlwaysFails transport) :
    api.scanDevice transport deviceId =
      { success := true, data := some (.obj [("message", .str "Scan initiated (mock)")]),
        fromCache := some true } := by
  unfold api.scanDevice
  rw [fetchWithRetry_allFail transport h]
  rfl

/-- `getAlerts` on a dead backend synthesizes the alerts fixture. -/
theorem api.getAlerts_allFail (transport : Transport) (t0 : ℤ)
    (h : AlwaysFails transport) :
    api.getAlerts transport t0 =
      { success := true, data := some (mockAlertsData t0), fromCache := some true } := by
  unfold api.getAlerts
  rw [fetchWithRetry_allFail transport h]
  rfl

/-- `acknowledgeAlert` on a dead backend synthesizes an acceptance. -/
theorem api.acknowledgeAlert_allFail (transport : Transport) (alertId : JVal)
    (h : AlwaysFails transport) :
    api.acknowledgeAlert transport alertId =
      { success := true, data := some (.obj [("message", .str "Alert acknowledged (mock)")]),
        fromCache := some true } := by
  unfold api.acknowledgeAlert
  rw [fetchWithRetry_allFail transport h]
  rfl

/-- `resolveAlert` on a dead backend synthesizes an acceptance. -/
theorem api.resolveAlert_allFail (transport : Transport) (alertId resolution : JVal)
    (h : AlwaysFails transport) :
    api.resolveAlert transport alertId resolution =
      { success := true, data := some (.obj [("message", .str "Alert resolved (mock)")]),
        fromCache := some true } := by
  unfold api.resolveAlert
  rw [fetchWithRetry_allFail transport h]
  rfl

/-- `createAlert` on a dead backend echoes the payload under a
timestamp id. -/
theorem api.createAlert_allFail (transport : Transport)
    (alertData : List (String × JVal)) (now : ℤ) (h : AlwaysFails transport) :
    api.createAlert transport alertData now =
      { success := true,
        data := some (.obj (objSpread [("id", .num (now : ℚ))] alertData)),
        fromCache := some true } := by
  unfold api.createAlert
  rw [fetchWithRetry_allFail transport h]
  rfl

/-- `getPatches` on a dead backend synthesizes the patches fixture. -/
theorem api.getPatches_allFail (transport : Transport) (h : AlwaysFails transport) :
    api.getPatches transport =
      { success := true, data := some mockPatchesData, fromCache := some true } := by
  unfold api.getPatches
  rw [fetchWithRetry_allFail transport h]
  rfl

/-- `getPatchDetails` on a dead backend looks the id up in the fixture. -/
theorem api.getPatchDetails_allFail (transport : Transport) (patchId : JVal)
    (h : AlwaysFails transport) :
    api.getPatchDetails transport patchId =
      { success := true,
        data := some (jsOr
          (match mockPatchesList.find? (fun p => jsEq (jsGet p "id") patchId) with
            | some p => p
            | none => JVal.undefined) (.obj []))
        fromCache := some true } := by
  unfold api.getPatchDetails
  rw [fetchWithRetry_allFail transport h]
  rfl

/-- `analyzePatch` on a dead backend returns the canned severity-keyed
analysis. -/
theorem api.analyzePatch_allFail (transport : Transport) (patchData : JVal)
    (h : AlwaysFails transport) :
    api.analyzePatch transport patchData =
      (let severity := jsOr (jsGet (jsGet patchData "patch") "severity") (.str "MEDIUM")
      let isHighRisk := jsEq severity (.str "CRITICAL") || jsEq severity (.str "HIGH")
      { success := true,
        data := some (.obj [
          ("recommendation", .str (if isHighRisk then "REVIEW" else "APPROVE")),
          ("reasoning", .str (if isHighRisk then
              "This patch addresses critical security vulnerabilities. Recommend thorough testing before production deployment."
            else
              "Patch has been analyzed and approved for deployment. Low risk of system disruption.")),
          ("riskLevel", .num (if isHighRisk then 7 else 3)),
          ("businessImpact", .str (if isHighRisk then "HIGH" else "LOW")),
          ("confidence", .num 0.92),
          ("deploymentSteps", .arr [
            .str "Backup affected systems before deployment",
            .str "Deploy to test environment first",
            .str (if isHighRisk then "Conduct thorough testing for 24-48 hours"
                  else "Monitor for 2-4 hours"),
            .str "Deploy to production during maintenance window",
            .str "Verify successful installation and system stability",
            .str "Document deployment and any issues encountered"])]),
        fromCache := some true }) := by
  unfold api.analyzePatch
  rw [fetchWithRetry_allFail transport h]
  rfl

/-- `deployPatch` on a dead backend synthesizes a mock job. -/
theorem api.deployPatch_allFail (transport : Transport) (deploymentData : JVal)
    (now : ℤ) (h : AlwaysFails transport) :
    api.deployPatch transport deploymentData now =
      { success := true,
        data := some (.obj [
          ("jobId", .str ("mock-" ++ toString now)),
          ("message", .str "Deployment initiated (mock)")]),
        fromCache := some true } := by
  unfold api.deployPatch
  rw [fetchWithRetry_allFail transport h]
  rfl

/-- `getPatchStatus` on a dead backend aggregates the inventory fixture:
5 devices, 2 compliant, 2 pending, 1 non-compliant. -/
theorem api.getPatchStatus_allFail (transport : Transport) (t0 now : ℤ)
    (h : AlwaysFails transport) :
    api.getPatchStatus transport t0 now =
      { success := true,
        data := some (.obj [
          ("totalDevices", .num 5),
          ("compliant", .num 2),
          ("pending", .num 2),
          ("nonCompliant", .num 1),
          ("lastUpdate", .isoDate now)]),
        fromCache := some true } := by
  unfold api.getPatchStatus
  rw [fetchWithRetry_allFail transport h]
  rfl

/-- `getPatchAnalysis` on a dead backend synthesizes the patches fixture. -/
theorem api.getPatchAnalysis_allFail (transport : Transport)
    (h : AlwaysFails transport) :
    api.getPatchAnalysis transport =
      { success := true, data := some mockPatchesData, fromCache := some true } := by
  unfold api.getPatchAnalysis
  rw [fetchWithRetry_allFail transport h]
  rfl

/-- `getPatchSchedule` on a dead backend synthesizes an empty list. -/
theorem api.getPatchSchedule_allFail (transport : Transport)
    (h : AlwaysFails transport) :
    api.getPatchSchedule transport =
      { success := true, data := some (.arr []), fromCache := some true } := by
  unfold api.getPatchSchedule
  rw [fetchWithRetry_allFail transport h]
  rfl

/-- `getSchedules` on a dead backend synthesizes an empty page. -/
theorem api.getSchedules_allFail (transport : Transport) (status : JVal)
    (h : AlwaysFails transport) :
    api.getSchedules transport status =
      { success := true,
        data := some (.obj [("schedules", .arr []), ("count", .num 0)]),
        fromCache := some true } := by
  unfold api.getSchedules
  rw [fetchWithRetry_allFail transport h]
  rfl

/-- `createSchedule` on a dead backend synthesizes an acceptance echoing
the request. -/
theorem api.createSchedule_allFail (transport : Transport) (scheduleData : JVal)
    (now : ℤ) (h : AlwaysFails transport) :
    api.createSchedule transport scheduleData now =
      { success := true,
        data := some (.obj [
          ("scheduleId", .str ("mock-" ++ toString now)),
          ("scheduledFor", jsGet scheduleData "scheduledFor"),
          ("patchTitle", jsGet scheduleData "patchTitle"),
          ("deviceCount", jsOr (jsLengthProp (jsGet scheduleData "deviceIds")) (.num 0)),
          ("message", .str "Schedule created (mock)")]),
        fromCache := some true } := by
  unfold api.createSchedule
  rw [fetchWithRetry_allFail transport h]
  rfl

/-- `getScheduleDetails` on a dead backend is the one hard failure: no
`data` key, no `fromCache` key. -/
theorem api.getScheduleDetails_allFail (transport : Transport) (scheduleId : JVal)
    (h : AlwaysFails transport) :
    api.getScheduleDetails transport scheduleId =
      { success := false, data := none, error := some "Schedule not found",
        fromCache := none } := by
  unfold api.getScheduleDetails
  rw [fetchWithRetry_allFail transport h]
  rfl

/-- `cancelSchedule` on a dead backend synthesizes an acceptance. -/
theorem api.cancelSchedule_allFail (transport : Transport) (scheduleId : JVal)
    (h : AlwaysFails transport) :
    api.cancelSchedule transport scheduleId =
      { success := true, data := some (.obj [("message", .str "Schedule cancelled (mock)")]),
        fromCache := some true } := by
  unfold api.cancelSchedule
  rw [fetchWithRetry_allFail transport h]
  rfl


/-- Looking up the freshly written key finds the new value. -/
theorem objInsert_lookup_self (fields : List (String × JVal)) (k : String) (v : JVal) :
    (objInsert fields k v).lookup k = some v := by
  induction fields with
  | nil => simp [objInsert]
  | cons p rest ih =>
    obtain ⟨k1, v1⟩ := p
    by_cases hk : (k1 == k) = true
    · rw [beq_iff_eq] at hk
      subst hk
      simp [objInsert]
    · have hk' : (k1 == k) = false := by simpa using hk
      have hk2 : (k == k1) = false := by
        rw [beq_eq_false_iff_ne] at hk' ⊢
        exact fun hc => hk' hc.symm
      simp only [objInsert, hk', Bool.false_eq_true, if_false, List.lookup_cons, hk2]
      exact ih

/-- Looking up any other key is unaffected by the write. -/
theorem objInsert_lookup_other (fields : List (String × JVal)) (k k' : String)
    (v : JVal) (hk : k' ≠ k) :
    (objInsert fields k v).lookup k' = fields.lookup k' := by
  have hkk : (k' == k) = false := by
    rw [beq_eq_false_iff_ne]
    exact hk
  induction fields with
  | nil => simp [objInsert, List.lookup_cons, hkk]
  | cons p rest ih =>
    obtain ⟨k1, v1⟩ := p
    by_cases h1 : (k1 == k) = true
    · rw [beq_iff_eq] at h1
      subst h1
      simp only [objInsert, beq_self_eq_true, if_true, List.lookup_cons, hkk]
    · have h1' : (k1 == k) = false := by simpa using h1
      simp only [objInsert, h1', Bool.false_eq_true, if_false, List.lookup_cons]
      cases h2 : (k' == k1) <;> simp only []
      exact ih

/-- A key absent from a field list has no lookup result. -/
theorem lookup_eq_none_of_not_mem_keys (l : List (String × JVal)) (k : String)
    (h : k ∉ l.map Prod.fst) : l.lookup k = none := by
  induction l with
  | nil => rfl
  | cons p rest ih =>
    obtain ⟨k1, v1⟩ := p
    simp only [List.map, List.mem_cons, not_or] at h
    have hk : (k == k1) = false := by
      rw [beq_eq_false_iff_ne]
      exact h.1
    simp only [List.lookup_cons, hk]
    exact ih h.2

/-- Spreading a source without key `k` leaves `k`'s binding in the base. -/
theorem objSpread_lookup_notin (base src : List (String × JVal)) (k : String)
    (h : src.lookup k = none) :
    (objSpread base src).lookup k = base.lookup k := by
  induction src generalizing base with
  | nil => rfl
  | cons p rest ih =>
    obtain ⟨k1, v1⟩ := p
    rw [List.lookup_cons] at h
    cases h1 : (k == k1) with
    | true => rw [h1] at h; cases h
    | false =>
      rw [h1] at h
      show (objSpread (objInsert base k1 v1) rest).lookup k = base.lookup k
      rw [ih (objInsert base k1 v1) h,
          objInsert_lookup_other base k1 k v1 (by
            rw [beq_eq_false_iff_ne] at h1
            exact h1)]

/-- Spreading a duplicate-free source makes its bindings win. -/
theorem objSpread_lookup_mem (base src : List (String × JVal)) (k : String)
    (v : JVal) (hnd : (src.map Prod.fst).Nodup) (h : src.lookup k = some v) :
    (objSpread base src).lookup k = some v := by
  induction src generalizing base with
  | nil => cases h
  | cons p rest ih =>
    obtain ⟨k1, v1⟩ := p
    simp only [List.map, List.nodup_cons] at hnd
    rw [List.lookup_cons] at h
    cases h1 : (k == k1) with
    | true =>
      rw [h1] at h
      injection h with hv
      rw [beq_iff_eq] at h1
      subst h1
      show (objSpread (objInsert base k v1) rest).lookup k = some v
      rw [objSpread_lookup_notin (objInsert base k v1) rest k
            (lookup_eq_none_of_not_mem_keys rest k hnd.1),
          objInsert_lookup_self, hv]
    | false =>
      rw [h1] at h
      exact ih (objInsert base k1 v1) hnd.2 h

/-- Every api operation is the same branch on `fetchWithRetry`: return the
genuine envelope on success, a well-formed fallback otherwise; either way
the result is well-formed.  (In the embedding every operation is a total
function, mirroring that the source catches every transport exception.) -/
theorem envelopeWF_branch (transport : Transport) (fb : Envelope)
    (hfb : EnvelopeWF fb) :
    EnvelopeWF (if !(fetchWithRetry transport).envelope.success then fb
                else (fetchWithRetry transport).envelope) := by
  rcases fetchLoop_envelope_shape transport 2 0 with ⟨b, hb⟩ | ⟨m, hm⟩
  · unfold fetchWithRetry
    rw [hb]
    exact ⟨fun _ => ⟨rfl, rfl, rfl⟩, fun hfalse => nomatch hfalse⟩
  · unfold fetchWithRetry
    rw [hm]
    exact hfb

/-- `jsEq` against a string literal is false on any other value. -/
theorem jsEq_str_false (s : String) (v : JVal) (h : v ≠ .str s) :
    jsEq (.str s) v = false := by
  cases v with
  | str t =>
    simp only [jsEq, beq_eq_false_iff_ne, ne_eq]
    intro hc
    exact h (by rw [hc])
  | undefined => rfl
  | null => rfl
  | bool b => rfl
  | num q => rfl
  | arr elems => rfl
  | obj fields => rfl
  | isoDate ms => rfl

/-- The severity branch of the fallback analysis, in the spec's terms: the
code compares `severity || 'MEDIUM'` against CRITICAL/HIGH, which holds
exactly when the raw severity value is the string CRITICAL or HIGH (a
falsy severity defaults to MEDIUM, which is neither). -/
theorem highRisk_iff (sev : JVal) :
    (jsEq (jsOr sev (.str "MEDIUM")) (.str "CRITICAL") ||
      jsEq (jsOr sev (.str "MEDIUM")) (.str "HIGH")) = true ↔
    (sev = .str "CRITICAL" ∨ sev = .str "HIGH") := by
  by_cases ht : jsTruthy sev = true
  · rw [jsOr, if_pos ht]
    cases sev <;> simp [jsEq]
  · rw [jsOr, if_neg ht]
    constructor
    · intro hc
      simp [jsEq] at hc
    · rintro (rfl | rfl) <;> exact absurd rfl ht

/-- C1 counterexample: the claim includes `getScheduleDetails` among the
read operations that must fall back with `success = true`, but on an
always-failing transport `getScheduleDetails` returns `success = false`. -/
theorem claim_C1_counterexample :
    (api.getScheduleDetails (fun _ => FetchResult.httpError 500) (JVal.str "sched-1")).success
      = false := rfl

/-- C1 (amended: `getScheduleDetails` removed from the list of read
operations — it fails hard, see C9): for every other supported read
operation (getInventory, getAlerts, getPatches, getPatchDetails,
getPatchStatus, getPatchAnalysis, getPatchSchedule, getSchedules), if the
transport fails on every attempt, the returned envelope has
`success = true` and `fromCache = true` with `data` the documented fixture:
the inventory fixture has exactly 5 devices, the patches fixture exactly 3
entries with ids KB5034441, KB5034439, UBUNTU-2024-01, and the alerts
fixture exactly 3 entries with ids 1, 2, 3 and severities "critical",
"high", "medium" respectively. -/
theorem claim_C1 (transport : Transport) (t0 now : ℤ) (h : AlwaysFails transport) :
    (api.getInventory transport t0 =
        { success := true, data := some (mockInventoryData t0), fromCache := some true } ∧
      (mockInventoryList t0).length = 5) ∧
    (api.getAlerts transport t0 =
        { success := true, data := some (mockAlertsData t0), fromCache := some true } ∧
      (mockAlertsList t0).map (fun a => jsGet a "id") = [.num 1, .num 2, .num 3] ∧
      (mockAlertsList t0).map (fun a => jsGet a "severity") =
        [.str "critical", .str "high", .str "medium"]) ∧
    (api.getPatches transport =
        { success := true, data := some mockPatchesData, fromCache := some true } ∧
      mockPatchesList.map (fun p => jsGet p "id") =
        [.str "KB5034441", .str "KB5034439", .str "UBUNTU-2024-01"]) ∧
    (∀ patchId, (api.getPatchDetails transport patchId).success = true ∧
      (api.getPatchDetails transport patchId).fromCache = some true) ∧
    api.getPatchStatus transport t0 now =
      { success := true,
        data := some (.obj [
          ("totalDevices", .num 5), ("compliant", .num 2), ("pending", .num 2),
          ("nonCompliant", .num 1), ("lastUpdate", .isoDate now)]),
        fromCache := some true } ∧
    api.getPatchAnalysis transport =
      { success := true, data := some mockPatchesData, fromCache := some true } ∧
    api.getPatchSchedule transport =
      { success := true, data := some (.arr []), fromCache := some true } ∧
    (∀ status, api.getSchedules transport status =
      { success := true,
        data := some (.obj [("schedules", .arr []), ("count", .num 0)]),
        fromCache := some true }) := by
  refine ⟨⟨api.getInventory_allFail transport t0 h, rfl⟩,
    ⟨api.getAlerts_allFail transport t0 h, rfl, rfl⟩,
    ⟨api.getPatches_allFail transport h, rfl⟩,
    fun patchId => ?_,
    api.getPatchStatus_allFail transport t0 now h,
    api.getPatchAnalysis_allFail transport h,
    api.getPatchSchedule_allFail transport h,
    fun status => api.getSchedules_allFail transport status h⟩
  rw [api.getPatchDetails_allFail transport patchId h]
  exact ⟨rfl, rfl⟩

/-- C1 witness: the amended claim instantiated on a transport that answers
HTTP 500 on every attempt. -/
theorem claim_C1_witness :
    AlwaysFails (fun _ => FetchResult.httpError 500) ∧
    api.getInventory (fun _ => FetchResult.httpError 500) 0 =
      { success := true, data := some (mockInventoryData 0), fromCache := some true } :=
  ⟨fun i => rfl,
    ((claim_C1 (fun _ => FetchResult.httpError 500) 0 0 (fun i => rfl)).1).1⟩

/-- C2: every mutation operation (scanDevice, acknowledgeAlert,
resolveAlert, createAlert, analyzePatch, deployPatch, createSchedule,
cancelSchedule) on an always-failing transport returns `success = true`
and `fromCache = true` — a synthesized acceptance, never
`success = false`. -/
theorem claim_C2 (transport : Transport)
    (deviceId alertId resolution patchData deploymentData scheduleData scheduleId : JVal)
    (alertData : List (String × JVal)) (now : ℤ) (h : AlwaysFails transport) :
    ((api.scanDevice transport deviceId).success = true ∧
      (api.scanDevice transport deviceId).fromCache = some true) ∧
    ((api.acknowledgeAlert transport alertId).success = true ∧
      (api.acknowledgeAlert transport alertId).fromCache = some true) ∧
    ((api.resolveAlert transport alertId resolution).success = true ∧
      (api.resolveAlert transport alertId resolution).fromCache = some true) ∧
    ((api.createAlert transport alertData now).success = true ∧
      (api.createAlert transport alertData now).fromCache = some true) ∧
    ((api.analyzePatch transport patchData).success = true ∧
      (api.analyzePatch transport patchData).fromCache = some true) ∧
    ((api.deployPatch transport deploymentData now).success = true ∧
      (api.deployPatch transport deploymentData now).fromCache = some true) ∧
    ((api.createSchedule transport scheduleData now).success = true ∧
      (api.createSchedule transport scheduleData now).fromCache = some true) ∧
    ((api.cancelSchedule transport scheduleId).success = true ∧
      (api.cancelSchedule transport scheduleId).fromCache = some true) := by
  refine ⟨?_, ?_, ?_, ?_, ?_, ?_, ?_, ?_⟩
  · rw [api.scanDevice_allFail transport deviceId h]
    exact ⟨rfl, rfl⟩
  · rw [api.acknowledgeAlert_allFail transport alertId h]
    exact ⟨rfl, rfl⟩
  · rw [api.resolveAlert_allFail transport alertId resolution h]
    exact ⟨rfl, rfl⟩
  · rw [api.createAlert_allFail transport alertData now h]
    exact ⟨rfl, rfl⟩
  · rw [api.analyzePatch_allFail transport patchData h]
    exact ⟨rfl, rfl⟩
  · rw [api.deployPatch_allFail transport deploymentData now h]
    exact ⟨rfl, rfl⟩
  · rw [api.createSchedule_allFail transport scheduleData now h]
    exact ⟨rfl, rfl⟩
  · rw [api.cancelSchedule_allFail transport scheduleId h]
    exact ⟨rfl, rfl⟩

/-- C2 witness: the claim instantiated on a transport that answers HTTP
500 on every attempt. -/
theorem claim_C2_witness :
    AlwaysFails (fun _ => FetchResult.httpError 500) ∧
    (api.scanDevice (fun _ => FetchResult.httpError 500) (JVal.num 1)).success = true :=
  ⟨fun i => rfl,
    ((claim_C2 (fun _ => FetchResult.httpError 500) (JVal.num 1) (JVal.num 1)
      (JVal.str "done") JVal.undefined JVal.undefined JVal.undefined (JVal.str "s-1") [] 0
      (fun i => rfl)).1).1⟩

/-- C3: `fetchWithRetry` makes exactly 3 transport attempts and no more: a
transport failing exactly twice then succeeding yields a genuine
`success = true, fromCache = false` envelope after exactly 3 attempts; a
transport failing on all attempts takes the fallback (`success = false`)
path after exactly 3 attempts, and the whole trace is unchanged under any
modification of the transport beyond index 2 (no 4th attempt). -/
theorem claim_C3 (transport : Transport) :
    (∀ b : JVal, (transport 0).isOk = false → (transport 1).isOk = false →
      transport 2 = .success b →
      fetchWithRetry transport =
        { envelope := { success := true, data := some b, fromCache := some false }
          attempts := 3
          delays := [1000, 2000] }) ∧
    (AlwaysFails transport →
      (fetchWithRetry transport).attempts = 3 ∧
      (fetchWithRetry transport).envelope.success = false ∧
      ∀ transport' : Transport, (∀ j, j ≤ 2 → transport' j = transport j) →
        fetchWithRetry transport' = fetchWithRetry transport) := by
  constructor
  · intro b h0 h1 h2
    exact fetchWithRetry_failTwice transport b h0 h1 h2
  · intro h
    refine ⟨?_, ?_, ?_⟩
    · rw [fetchWithRetry_allFail transport h]
    · rw [fetchWithRetry_allFail transport h]
    · intro transport' hag
      unfold fetchWithRetry
      exact fetchLoop_congr transport transport' 2 0 (fun j hj1 hj2 => hag j (by omega))

/-- C3 witness: both branches instantiated on concrete transports. -/
theorem claim_C3_witness :
    fetchWithRetry (fun i => if i < 2 then FetchResult.httpError 500
      else FetchResult.success (JVal.num 7)) =
      { envelope := { success := true, data := some (JVal.num 7), fromCache := some false }
        attempts := 3
        delays := [1000, 2000] } ∧
    (fetchWithRetry (fun _ => FetchResult.httpError 500)).attempts = 3 :=
  ⟨(claim_C3 (fun i => if i < 2 then FetchResult.httpError 500
      else FetchResult.success (JVal.num 7))).1 (JVal.num 7) rfl rfl rfl,
    ((claim_C3 (fun _ => FetchResult.httpError 500)).2 (fun i => rfl)).1⟩

/-- C4: in `fetchWithRetry`, whenever the first two attempts fail, the
delay slept before attempt N (N = 2, 3) is (N-1) seconds — [1000 ms,
2000 ms], linear in the attempt index — and these are the only delays, so
none occurs after the final attempt. -/
theorem claim_C4 (transport : Transport)
    (h0 : (transport 0).isOk = false) (h1 : (transport 1).isOk = false) :
    (fetchWithRetry transport).delays = [(2 - 1) * 1000, (3 - 1) * 1000] := by
  rw [fetchWithRetry, fetchLoop_fail_step transport 0 1 h0,
      fetchLoop_fail_step transport 1 0 h1]
  show 1000 * (0 + 1) :: 1000 * (1 + 1) :: (fetchLoop transport 2 0).delays =
    [(2 - 1) * 1000, (3 - 1) * 1000]
  have hz : (fetchLoop transport 2 0).delays = [] := by
    cases ht2 : transport 2 with
    | success b => rw [fetchLoop_ok transport 2 0 b ht2]
    | httpError s => rw [fetchLoop_fail_zero transport 2 (by rw [ht2]; rfl)]
    | failure m => rw [fetchLoop_fail_zero transport 2 (by rw [ht2]; rfl)]
  rw [hz]

/-- C4 witness: the delay schedule on a transport that answers HTTP 500 on
every attempt. -/
theorem claim_C4_witness :
    (fetchWithRetry (fun _ => FetchResult.httpError 500)).delays =
      [(2 - 1) * 1000, (3 - 1) * 1000] :=
  claim_C4 (fun _ => FetchResult.httpError 500) rfl rfl

/-- C7: `getInventory` is idempotent under total failure — two calls
against (possibly different) always-failing transports in the same module
instance return the same fixture payload, there being no mutable state in
the module. -/
theorem claim_C7 (transport transport' : Transport) (t0 : ℤ)
    (h : AlwaysFails transport) (h' : AlwaysFails transport') :
    api.getInventory transport t0 = api.getInventory transport' t0 ∧
    (api.getInventory transport t0).data = some (mockInventoryData t0) := by
  rw [api.getInventory_allFail transport t0 h, api.getInventory_allFail transport' t0 h']
  exact ⟨rfl, rfl⟩

/-- C7 witness: two concrete failing transports (connection error and
HTTP 500) give identical inventory payloads. -/
theorem claim_C7_witness :
    api.getInventory (fun _ => FetchResult.httpError 500) 0 =
      api.getInventory (fun _ => FetchResult.failure "fetch failed") 0 :=
  (claim_C7 (fun _ => FetchResult.httpError 500)
    (fun _ => FetchResult.failure "fetch failed") 0 (fun i => rfl) (fun i => rfl)).1

/-- C9: `getScheduleDetails` is the unique operation that surfaces a
terminal failure: on an always-failing transport it returns
`{success: false, error: 'Schedule not found'}` with no `data` and no
`fromCache` key, while every one of the sixteen other operations returns
`success = true`. -/
theorem claim_C9 (transport : Transport) (t0 now : ℤ)
    (deviceId alertId resolution patchId patchData deploymentData status scheduleData scheduleId : JVal)
    (alertData : List (String × JVal)) (h : AlwaysFails transport) :
    api.getScheduleDetails transport scheduleId =
      { success := false, data := none, error := some "Schedule not found",
        fromCache := none } ∧
    (api.getInventory transport t0).success = true ∧
    (api.scanDevice transport deviceId).success = true ∧
    (api.getAlerts transport t0).success = true ∧
    (api.acknowledgeAlert transport alertId).success = true ∧
    (api.resolveAlert transport alertId resolution).success = true ∧
    (api.createAlert transport alertData now).success = true ∧
    (api.getPatches transport).success = true ∧
    (api.getPatchDetails transport patchId).success = true ∧
    (api.analyzePatch transport patchData).success = true ∧
    (api.deployPatch transport deploymentData now).success = true ∧
    (api.getPatchStatus transport t0 now).success = true ∧
    (api.getPatchAnalysis transport).success = true ∧
    (api.getPatchSchedule transport).success = true ∧
    (api.getSchedules transport status).success = true ∧
    (api.createSchedule transport scheduleData now).success = true ∧
    (api.cancelSchedule transport scheduleId).success = true := by
  refine ⟨api.getScheduleDetails_allFail transport scheduleId h,
    ?_, ?_, ?_, ?_, ?_, ?_, ?_, ?_, ?_, ?_, ?_, ?_, ?_, ?_, ?_, ?_⟩
  · rw [api.getInventory_allFail transport t0 h]
  · rw [api.scanDevice_allFail transport deviceId h]
  · rw [api.getAlerts_allFail transport t0 h]
  · rw [api.acknowledgeAlert_allFail transport alertId h]
  · rw [api.resolveAlert_allFail transport alertId resolution h]
  · rw [api.createAlert_allFail transport alertData now h]
  · rw [api.getPatches_allFail transport h]
  · rw [api.getPatchDetails_allFail transport patchId h]
  · rw [api.analyzePatch_allFail transport patchData h]
  · rw [api.deployPatch_allFail transport deploymentData now h]
  · rw [api.getPatchStatus_allFail transport t0 now h]
  · rw [api.getPatchAnalysis_allFail transport h]
  · rw [api.getPatchSchedule_allFail transport h]
  · rw [api.getSchedules_allFail transport status h]
  · rw [api.createSchedule_allFail transport scheduleData now h]
  · rw [api.cancelSchedule_allFail transport scheduleId h]

/-- C9 witness: the dichotomy instantiated on an HTTP-500 transport. -/
theorem claim_C9_witness :
    api.getScheduleDetails (fun _ => FetchResult.httpError 500) (JVal.str "s-9") =
      { success := false, data := none, error := some "Schedule not found",
        fromCache := none } :=
  (claim_C9 (fun _ => FetchResult.httpError 500) 0 0 JVal.undefined JVal.undefined JVal.undefined
    JVal.undefined JVal.undefined JVal.undefined JVal.undefined JVal.undefined (JVal.str "s-9") []
    (fun i => rfl)).1

/-- C5 counterexample: an envelope is not always populated with all four
fields — on a genuine response the source writes `{success, data,
fromCache}` only, so the `error` key is absent (undefined). -/
theorem claim_C5_counterexample :
    (api.getInventory (fun _ => FetchResult.success (JVal.arr [])) 0).error = none := rfl

/-- C5 (amended: the envelope is not always populated with all four
fields; `error` is absent on every success path and `data`/`fromCache`
are absent on getScheduleDetails' terminal failure): every operation, on
every transport, never raises — each is a total function — and returns an
envelope with a defined boolean `success`; whenever `success = true` the
`data` and `fromCache` fields are present and `error` is absent, and
whenever `success = false` the `error` field is present. -/
theorem claim_C5 :
    (∀ transport t0, EnvelopeWF (api.getInventory transport t0)) ∧
    (∀ transport deviceId, EnvelopeWF (api.scanDevice transport deviceId)) ∧
    (∀ transport t0, EnvelopeWF (api.getAlerts transport t0)) ∧
    (∀ transport alertId, EnvelopeWF (api.acknowledgeAlert transport alertId)) ∧
    (∀ transport alertId resolution,
      EnvelopeWF (api.resolveAlert transport alertId resolution)) ∧
    (∀ transport alertData now, EnvelopeWF (api.createAlert transport alertData now)) ∧
    (∀ transport, EnvelopeWF (api.getPatches transport)) ∧
    (∀ transport patchId, EnvelopeWF (api.getPatchDetails transport patchId)) ∧
    (∀ transport patchData, EnvelopeWF (api.analyzePatch transport patchData)) ∧
    (∀ transport deploymentData now,
      EnvelopeWF (api.deployPatch transport deploymentData now)) ∧
    (∀ transport t0 now, EnvelopeWF (api.getPatchStatus transport t0 now)) ∧
    (∀ transport, EnvelopeWF (api.getPatchAnalysis transport)) ∧
    (∀ transport, EnvelopeWF (api.getPatchSchedule transport)) ∧
    (∀ transport status, EnvelopeWF (api.getSchedules transport status)) ∧
    (∀ transport scheduleData now,
      EnvelopeWF (api.createSchedule transport scheduleData now)) ∧
    (∀ transport scheduleId, EnvelopeWF (api.getScheduleDetails transport scheduleId)) ∧
    (∀ transport scheduleId, EnvelopeWF (api.cancelSchedule transport scheduleId)) := by
  refine ⟨?_, ?_, ?_, ?_, ?_, ?_, ?_, ?_, ?_, ?_, ?_, ?_, ?_, ?_, ?_, ?_, ?_⟩
  · intro transport t0
    unfold api.getInventory
    exact envelopeWF_branch transport _ ⟨fun _ => ⟨rfl, rfl, rfl⟩, fun hf => nomatch hf⟩
  · intro transport deviceId
    unfold api.scanDevice
    exact envelopeWF_branch transport _ ⟨fun _ => ⟨rfl, rfl, rfl⟩, fun hf => nomatch hf⟩
  · intro transport t0
    unfold api.getAlerts
    exact envelopeWF_branch transport _ ⟨fun _ => ⟨rfl, rfl, rfl⟩, fun hf => nomatch hf⟩
  · intro transport alertId
    unfold api.acknowledgeAlert
    exact envelopeWF_branch transport _ ⟨fun _ => ⟨rfl, rfl, rfl⟩, fun hf => nomatch hf⟩
  · intro transport alertId resolution
    unfold api.resolveAlert
    exact envelopeWF_branch transport _ ⟨fun _ => ⟨rfl, rfl, rfl⟩, fun hf => nomatch hf⟩
  · intro transport alertData now
    unfold api.createAlert
    exact envelopeWF_branch transport _ ⟨fun _ => ⟨rfl, rfl, rfl⟩, fun hf => nomatch hf⟩
  · intro transport
    unfold api.getPatches
    exact envelopeWF_branch transport _ ⟨fun _ => ⟨rfl, rfl, rfl⟩, fun hf => nomatch hf⟩
  · intro transport patchId
    unfold api.getPatchDetails
    exact envelopeWF_branch transport _ ⟨fun _ => ⟨rfl, rfl, rfl⟩, fun hf => nomatch hf⟩
  · intro transport patchData
    unfold api.analyzePatch
    exact envelopeWF_branch transport _ ⟨fun _ => ⟨rfl, rfl, rfl⟩, fun hf => nomatch hf⟩
  · intro transport deploymentData now
    unfold api.deployPatch
    exact envelopeWF_branch transport _ ⟨fun _ => ⟨rfl, rfl, rfl⟩, fun hf => nomatch hf⟩
  · intro transport t0 now
    unfold api.getPatchStatus
    exact envelopeWF_branch transport _ ⟨fun _ => ⟨rfl, rfl, rfl⟩, fun hf => nomatch hf⟩
  · intro transport
    unfold api.getPatchAnalysis
    exact envelopeWF_branch transport _ ⟨fun _ => ⟨rfl, rfl, rfl⟩, fun hf => nomatch hf⟩
  · intro transport
    unfold api.getPatchSchedule
    exact envelopeWF_branch transport _ ⟨fun _ => ⟨rfl, rfl, rfl⟩, fun hf => nomatch hf⟩
  · intro transport status
    unfold api.getSchedules
    exact envelopeWF_branch transport _ ⟨fun _ => ⟨rfl, rfl, rfl⟩, fun hf => nomatch hf⟩
  · intro transport scheduleData now
    unfold api.createSchedule
    exact envelopeWF_branch transport _ ⟨fun _ => ⟨rfl, rfl, rfl⟩, fun hf => nomatch hf⟩
  · intro transport scheduleId
    unfold api.getScheduleDetails
    exact envelopeWF_branch transport _
      ⟨fun ht => (Bool.false_ne_true ht).elim, fun _ => rfl⟩
  · intro transport scheduleId
    unfold api.cancelSchedule
    exact envelopeWF_branch transport _ ⟨fun _ => ⟨rfl, rfl, rfl⟩, fun hf => nomatch hf⟩

/-- C6: on an always-failing transport, `analyzePatch` returns a static
decision determined by one branch on `patchData.patch.severity`
(defaulting to MEDIUM when absent or falsy): severity CRITICAL or HIGH
gives recommendation REVIEW with riskLevel 7, anything else gives APPROVE
with riskLevel 3. -/
theorem claim_C6 (transport : Transport) (patchData : JVal) (h : AlwaysFails transport) :
    (api.analyzePatch transport patchData).success = true ∧
    (api.analyzePatch transport patchData).fromCache = some true ∧
    ((jsGet (jsGet patchData "patch") "severity" = .str "CRITICAL" ∨
      jsGet (jsGet patchData "patch") "severity" = .str "HIGH") →
      jsGet ((api.analyzePatch transport patchData).data.getD .undefined) "recommendation" =
          .str "REVIEW" ∧
      jsGet ((api.analyzePatch transport patchData).data.getD .undefined) "riskLevel" =
          .num 7) ∧
    (¬(jsGet (jsGet patchData "patch") "severity" = .str "CRITICAL" ∨
       jsGet (jsGet patchData "patch") "severity" = .str "HIGH") →
      jsGet ((api.analyzePatch transport patchData).data.getD .undefined) "recommendation" =
          .str "APPROVE" ∧
      jsGet ((api.analyzePatch transport patchData).data.getD .undefined) "riskLevel" =
          .num 3) := by
  rw [api.analyzePatch_allFail transport patchData h]
  refine ⟨rfl, rfl, ?_, ?_⟩
  · intro hs
    have hb := (highRisk_iff (jsGet (jsGet patchData "patch") "severity")).mpr hs
    constructor
    · simp only [hb]
      rfl
    · simp only [hb]
      rfl
  · intro hs
    have hb : (jsEq (jsOr (jsGet (jsGet patchData "patch") "severity") (.str "MEDIUM"))
        (.str "CRITICAL") ||
      jsEq (jsOr (jsGet (jsGet patchData "patch") "severity") (.str "MEDIUM"))
        (.str "HIGH")) = false :=
      Bool.eq_false_iff.mpr
        (fun ht => hs ((highRisk_iff (jsGet (jsGet patchData "patch") "severity")).mp ht))
    constructor
    · simp only [hb]
      rfl
    · simp only [hb]
      rfl

/-- C6 witness: a CRITICAL patch payload on an HTTP-500 transport gets
recommendation REVIEW. -/
theorem claim_C6_witness :
    AlwaysFails (fun _ => FetchResult.httpError 500) ∧
    jsGet ((api.analyzePatch (fun _ => FetchResult.httpError 500)
        (JVal.obj [("patch", JVal.obj [("severity", JVal.str "CRITICAL")])])).data.getD
      .undefined) "recommendation" = JVal.str "REVIEW" :=
  ⟨fun i => rfl,
    ((claim_C6 (fun _ => FetchResult.httpError 500)
      (JVal.obj [("patch", JVal.obj [("severity", JVal.str "CRITICAL")])])
      (fun i => rfl)).2.2.1 (Or.inl rfl)).1⟩

/-- C8: on an always-failing transport, `createAlert` on a payload such as
`{title: "X", severity: "CRITICAL", ...}` (a JS object, so with distinct
keys and — as in the scenario payload — no `id` field of its own) returns
an envelope whose `data.id` is the call-time timestamp, hence a fresh
value on each call made at a distinct timestamp, and whose other data
fields equal the corresponding input fields unchanged. -/
theorem claim_C8 (transport : Transport) (alertData : List (String × JVal))
    (now now' : ℤ) (h : AlwaysFails transport)
    (hnd : (alertData.map Prod.fst).Nodup) (hid : alertData.lookup "id" = none) :
    (api.createAlert transport alertData now).success = true ∧
    (api.createAlert transport alertData now).fromCache = some true ∧
    jsGet ((api.createAlert transport alertData now).data.getD .undefined) "id" =
      .num (now : ℚ) ∧
    (now ≠ now' →
      jsGet ((api.createAlert transport alertData now).data.getD .undefined) "id" ≠
        jsGet ((api.createAlert transport alertData now').data.getD .undefined) "id") ∧
    (∀ k, k ≠ "id" →
      jsGet ((api.createAlert transport alertData now).data.getD .undefined) k =
        match alertData.lookup k with
        | some v => v
        | none => JVal.undefined) := by
  have hidlook : ∀ t : ℤ,
      (objSpread [("id", JVal.num (t : ℚ))] alertData).lookup "id" =
        some (JVal.num (t : ℚ)) := by
    intro t
    rw [objSpread_lookup_notin _ alertData "id" hid]
    rfl
  rw [api.createAlert_allFail transport alertData now h,
      api.createAlert_allFail transport alertData now' h]
  refine ⟨rfl, rfl, ?_, ?_, ?_⟩
  · show jsGet (.obj (objSpread [("id", JVal.num (now : ℚ))] alertData)) "id" =
      .num (now : ℚ)
    simp only [jsGet, hidlook now]
  · intro hne
    show jsGet (.obj (objSpread [("id", JVal.num (now : ℚ))] alertData)) "id" ≠
      jsGet (.obj (objSpread [("id", JVal.num (now' : ℚ))] alertData)) "id"
    simp only [jsGet, hidlook now, hidlook now']
    intro hc
    injection hc with hq
    exact hne (by exact_mod_cast hq)
  · intro k hk
    show jsGet (.obj (objSpread [("id", JVal.num (now : ℚ))] alertData)) k =
      match alertData.lookup k with
      | some v => v
      | none => JVal.undefined
    cases hkl : alertData.lookup k with
    | some v =>
      have := objSpread_lookup_mem [("id", JVal.num (now : ℚ))] alertData k v hnd hkl
      simp only [jsGet, this]
    | none =>
      have hbase : ([("id", JVal.num (now : ℚ))] : List (String × JVal)).lookup k = none := by
        have hkid : (k == "id") = false := by
          rw [beq_eq_false_iff_ne]
          exact hk
        simp [List.lookup_cons, hkid]
      have := objSpread_lookup_notin [("id", JVal.num (now : ℚ))] alertData k hkl
      rw [hbase] at this
      simp only [jsGet, this]

/-- C8 witness: the scenario payload `{title: "X", severity: "CRITICAL"}`
at timestamps 1 and 2 on an HTTP-500 transport. -/
theorem claim_C8_witness :
    AlwaysFails (fun _ => FetchResult.httpError 500) ∧
    jsGet ((api.createAlert (fun _ => FetchResult.httpError 500)
        [("title", JVal.str "X"), ("severity", JVal.str "CRITICAL")] 1).data.getD
      .undefined) "id" = JVal.num 1 ∧
    jsGet ((api.createAlert (fun _ => FetchResult.httpError 500)
        [("title", JVal.str "X"), ("severity", JVal.str "CRITICAL")] 1).data.getD
      .undefined) "id" ≠
      jsGet ((api.createAlert (fun _ => FetchResult.httpError 500)
        [("title", JVal.str "X"), ("severity", JVal.str "CRITICAL")] 2).data.getD
      .undefined) "id" :=
  ⟨fun i => rfl,
    (claim_C8 (fun _ => FetchResult.httpError 500)
      [("title", JVal.str "X"), ("severity", JVal.str "CRITICAL")] 1 2
      (fun i => rfl) (by decide) rfl).2.2.1,
    (claim_C8 (fun _ => FetchResult.httpError 500)
      [("title", JVal.str "X"), ("severity", JVal.str "CRITICAL")] 1 2
      (fun i => rfl) (by decide) rfl).2.2.2.1 (by decide)⟩

/-- C10: on an always-failing transport, `getPatchDetails` of any patchId
other than the three fixture ids returns `success = true`,
`fromCache = true` with `data` the empty object, not an error; each of the
three fixture ids returns the matching fixture entry. -/
theorem claim_C10 (transport : Transport) (patchId : JVal) (h : AlwaysFails transport) :
    (patchId ≠ .str "KB5034441" → patchId ≠ .str "KB5034439" →
      patchId ≠ .str "UBUNTU-2024-01" →
      api.getPatchDetails transport patchId =
        { success := true, data := some (.obj []), fromCache := some true }) ∧
    api.getPatchDetails transport (.str "KB5034441") =
      { success := true, data := some (mockPatchesList.getD 0 JVal.undefined),
        fromCache := some true } ∧
    api.getPatchDetails transport (.str "KB5034439") =
      { success := true, data := some (mockPatchesList.getD 1 JVal.undefined),
        fromCache := some true } ∧
    api.getPatchDetails transport (.str "UBUNTU-2024-01") =
      { success := true, data := some (mockPatchesList.getD 2 JVal.undefined),
        fromCache := some true } := by
  refine ⟨?_, ?_, ?_, ?_⟩
  · intro h1 h2 h3
    rw [api.getPatchDetails_allFail transport patchId h]
    have hf : mockPatchesList.find? (fun p => jsEq (jsGet p "id") patchId) = none := by
      rw [List.find?_eq_none]
      intro x hx
      have e1 := jsEq_str_false "KB5034441" patchId h1
      have e2 := jsEq_str_false "KB5034439" patchId h2
      have e3 := jsEq_str_false "UBUNTU-2024-01" patchId h3
      simp only [mockPatchesList, List.mem_cons, List.not_mem_nil, or_false] at hx
      rcases hx with rfl | rfl | rfl
      · intro hc
        have hc' : jsEq (JVal.str "KB5034441") patchId = true := hc
        rw [e1] at hc'
        cases hc'
      · intro hc
        have hc' : jsEq (JVal.str "KB5034439") patchId = true := hc
        rw [e2] at hc'
        cases hc'
      · intro hc
        have hc' : jsEq (JVal.str "UBUNTU-2024-01") patchId = true := hc
        rw [e3] at hc'
        cases hc'
    rw [hf]
    rfl
  · rw [api.getPatchDetails_allFail transport (.str "KB5034441") h]
    rfl
  · rw [api.getPatchDetails_allFail transport (.str "KB5034439") h]
    rfl
  · rw [api.getPatchDetails_allFail transport (.str "UBUNTU-2024-01") h]
    rfl

/-- C10 witness: an unknown id returns an empty object, a known one its
fixture entry, on an HTTP-500 transport. -/
theorem claim_C10_witness :
    api.getPatchDetails (fun _ => FetchResult.httpError 500) (JVal.str "KB0000000") =
      { success := true, data := some (.obj []), fromCache := some true } ∧
    api.getPatchDetails (fun _ => FetchResult.httpError 500) (JVal.str "KB5034441") =
      { success := true, data := some (mockPatchesList.getD 0 JVal.undefined),
        fromCache := some true } :=
  ⟨(claim_C10 (fun _ => FetchResult.httpError 500) (JVal.str "KB0000000")
      (fun i => rfl)).1
      (by intro hc; injection hc with hs; exact absurd hs (by decide))
      (by intro hc; injection hc with hs; exact absurd hs (by decide))
      (by intro hc; injection hc with hs; exact absurd hs (by decide)),
    (claim_C10 (fun _ => FetchResult.httpError 500) (JVal.str "KB0000000")
      (fun i => rfl)).2.1⟩

/-- C5 witness: the amended shape invariant instantiated on a concrete
operation and transport. -/
theorem claim_C5_witness :
    EnvelopeWF (api.getInventory (fun _ => FetchResult.httpError 500) 0) :=
  claim_C5.1 (fun _ => FetchResult.httpError 500) 0
